import Mathlib

/-!
# gorunit: job lifecycle supervisor

A shallow embedding of `main.go`: the name rewrite and submission done by
`handleCreateJob`, the poll loop of `watchAndCleanUpJob`, and `deleteJob`.

The orchestrator client is the environment.  Every call made on it is
recorded as an `Event`, and every value it returns is an input of the model:
the result of `Create`, the result of each `Get` (one per loop iteration) and
whether `Delete` returned an error.

`getKubeClientset` returns a nil client together with an error when the
configuration cannot be built (lines 58-60).  `watchAndCleanUpJob` and
`deleteJob` discard that error and call through the client (lines 72-74 and
89-91), so with a nil client the call panics before any request is sent.  For
these two functions the outcome of `getKubeClientset` is an input as well.
For `handleCreateJob` the input is what the create call returned, so a request
whose client could not be built, and which therefore never reaches the create
call, is outside the model.
-/

namespace Gorunit

/-! ## Data model (the fields of `batch_v1.Job` the program touches) -/

/-- Object metadata: `ObjectMeta.Name`, `ObjectMeta.Namespace`, and the labels
standing for the metadata the program never reads. -/
structure ObjectMeta where
  Name : String
  Namespace : String
  Labels : List (String × String)
  deriving DecidableEq, Repr

/-- Pod template of a job: its own metadata and the pod spec, kept as an
uninterpreted payload. -/
structure PodTemplateSpec where
  ObjectMeta : ObjectMeta
  Spec : String
  deriving DecidableEq, Repr

/-- Job spec: the template and the remaining settings as a payload. -/
structure JobSpec where
  Template : PodTemplateSpec
  Settings : String
  deriving DecidableEq, Repr

/-- Job status counters (`int32` in the client library; only compared with 1). -/
structure JobStatus where
  Active : Int
  Succeeded : Int
  Failed : Int
  deriving DecidableEq, Repr

/-- The job object, `batch_v1.Job`. -/
structure Job where
  ObjectMeta : ObjectMeta
  Spec : JobSpec
  Status : JobStatus
  deriving DecidableEq, Repr

/-- The zero value `batch_v1.Job{}`. -/
def emptyJob : Job :=
  { ObjectMeta := { Name := "", Namespace := "", Labels := [] },
    Spec := { Template := { ObjectMeta := { Name := "", Namespace := "", Labels := [] },
                            Spec := "" },
              Settings := "" },
    Status := { Active := 0, Succeeded := 0, Failed := 0 } }

/-! ## Observable events -/

/-- What the program does to the outside world, in program order. -/
inductive Event where
  /-- One line `log.Printf("%s: %s\n", name, message)`. -/
  | log (name : String) (message : String)
  /-- A call `Jobs(ns).Create(job)`. -/
  | create (ns : String) (job : Job)
  /-- A call `Jobs(ns).Get(name, GetOptions{})`. -/
  | get (ns : String) (name : String)
  /-- A call `Jobs(ns).Delete(name, foreground propagation)`. -/
  | delete (ns : String) (name : String)
  /-- The sleep `time.Sleep(time.Second)`. -/
  | sleep
  /-- The statement `go watchAndCleanUpJob(j)`. -/
  | spawn (j : Job)
  /-- Text written to the HTTP response. -/
  | respond (text : String)
  deriving DecidableEq, Repr

/-- Is the event a status fetch? -/
def Event.isGet : Event → Bool
  | .get _ _ => true
  | _ => false

/-- Is the event a delete call? -/
def Event.isDelete : Event → Bool
  | .delete _ _ => true
  | _ => false

/-- Is the event the start of a watcher task? -/
def Event.isSpawn : Event → Bool
  | .spawn _ => true
  | _ => false

/-! ## `jobLog` and `deleteJob` -/

/-- `jobLog` (lines 65-67): logs `message` under the name the given job value carries. -/
def jobLog (job : Job) (message : String) : Event :=
  .log job.ObjectMeta.Name message

/-- What the environment does while `deleteJob` runs: `getKubeClientset`
hands back a client and the delete call returns, with `err` telling whether
its error is non-nil; or `getKubeClientset` hands back a nil client. -/
inductive DeleteReading where
  | returned (err : Bool)
  | noClient
  deriving DecidableEq, Repr

/-- `deleteJob` (lines 69-83): the line "cleaning up", then the delete call
and one log line chosen by the error result of that call.  With a nil client
the call at line 74 panics after the first line, before a delete is sent. -/
def deleteJob (job : Job) : DeleteReading → List Event
  | .noClient => [jobLog job "cleaning up"]
  | .returned err =>
    [jobLog job "cleaning up",
     .delete job.ObjectMeta.Namespace job.ObjectMeta.Name,
     if err then jobLog job "error when trying to remove" else jobLog job "removed"]

/-! ## The poll loop of `watchAndCleanUpJob` -/

/-- The four branches of the if/else chain at lines 99-109. -/
inductive Classification where
  | Active
  | Succeeded
  | Failed
  | Unknown
  deriving DecidableEq, Repr

/-- The if/else chain of lines 99-109 on the counters of the fetched value. -/
def classify (st : JobStatus) : Classification :=
  if st.Active = 1 then .Active
  else if st.Succeeded = 1 then .Succeeded
  else if st.Failed = 1 then .Failed
  else .Unknown

/-- The message logged in each branch. -/
def Classification.message : Classification → String
  | .Active => "active"
  | .Succeeded => "finished"
  | .Failed => "failed"
  | .Unknown => "I have no idea what the fuck is happening"

/-- Does the branch execute `break`? -/
def Classification.breaks : Classification → Bool
  | .Succeeded => true
  | .Failed => true
  | _ => false

/-- What one call `Jobs(ns).Get(name)` returned: the job value `j` and
whether `err != nil`. -/
structure GetResult where
  j : Job
  err : Bool
  deriving DecidableEq, Repr

/-- One loop iteration after the fetch (lines 95-111): the error line when
`err != nil`, then the if/else chain on `j.Status` in every case; a branch
that does not break is followed by the sleep.  Returns the events and whether
the iteration left the loop. -/
def loopBody (job : Job) (r : GetResult) : List Event × Bool :=
  let errLine : List Event :=
    if r.err then [jobLog job "something went terribly wrong, can't retrieve job status"]
    else []
  let c := classify r.j.Status
  if c.breaks then (errLine ++ [jobLog job c.message], true)
  else (errLine ++ [jobLog job c.message, .sleep], false)

/-- What the environment does at one iteration: `getKubeClientset` hands
back a client and the fetch returns; or it hands back a nil client, and the
call at line 91 panics before a fetch is sent. -/
inductive TickReading where
  | returned (r : GetResult)
  | noClient
  deriving DecidableEq, Repr

/-- How a run of the loop over a finite list of readings stands at its end. -/
inductive LoopExit where
  /-- Left by `break`. -/
  | broke
  /-- Left by a panic unwinding the function. -/
  | panicked
  /-- Still polling: the readings ran out before the loop exited. -/
  | running
  deriving DecidableEq, Repr

/-- The `for` loop of lines 88-112 driven by the readings, one per iteration. -/
def pollLoop (job : Job) : List TickReading → List Event × LoopExit
  | [] => ([], .running)
  | .noClient :: _ => ([], .panicked)
  | .returned r :: rest =>
    let fetch := Event.get job.ObjectMeta.Namespace job.ObjectMeta.Name
    if (loopBody job r).2 then (fetch :: (loopBody job r).1, .broke)
    else (fetch :: ((loopBody job r).1 ++ (pollLoop job rest).1), (pollLoop job rest).2)

/-- `watchAndCleanUpJob` (lines 85-113): the loop, and the deferred
`deleteJob(job)` run when the function is left, by `break` or by a panic;
`del` is what the environment does during that call.  While the loop is still
running the deferred call has not run. -/
def watchAndCleanUpJob (job : Job) (readings : List TickReading) (del : DeleteReading) :
    List Event × LoopExit :=
  match (pollLoop job readings).2 with
  | .running => ((pollLoop job readings).1, .running)
  | x => ((pollLoop job readings).1 ++ deleteJob job del, x)

/-! ## `handleCreateJob` -/

/-- The name built at line 138, `fmt.Sprintf("%s-%s", base, id)`. -/
def uniqueName (base id : String) : String :=
  base ++ "-" ++ id

/-- Lines 138-140: the name rewrite, with the generated identifier `id`
(`uuid.New().String()`) as an input. -/
def assignIdentity (job : Job) (id : String) : Job :=
  let name := uniqueName job.ObjectMeta.Name id
  { job with
    ObjectMeta := { job.ObjectMeta with Name := name },
    Spec := { job.Spec with
      Template := { job.Spec.Template with
        ObjectMeta := { job.Spec.Template.ObjectMeta with Name := name } } } }

/-- What `Jobs(ns).Create(job)` returned: the job value `j` and whether `err != nil`. -/
structure CreateResult where
  j : Job
  err : Bool
  deriving DecidableEq, Repr

/-- `handleCreateJob` (lines 128-152).  `body` is the decoded request body
(`none` when decoding failed), `id` the generated identifier and `res` what
the create call returns. -/
def handleCreateJob (body : Option Job) (id : String) (res : CreateResult) : List Event :=
  match body with
  | none => [.respond "failed to parse request body"]
  | some job =>
    let job1 := assignIdentity job id
    let call := Event.create job1.ObjectMeta.Namespace job1
    if res.err then [call, jobLog res.j "failed to create"]
    else [call, jobLog res.j "created", .spawn res.j]

/-- The watcher tasks a handler run started. -/
def spawned : List Event → List Job
  | [] => []
  | .spawn j :: rest => j :: spawned rest
  | _ :: rest => spawned rest

/-- A whole request: the handler, then every watcher task it started, each
driven by the same readings. -/
def serveRequest (body : Option Job) (id : String) (res : CreateResult)
    (readings : List TickReading) (del : DeleteReading) : List Event :=
  handleCreateJob body id res ++
    (spawned (handleCreateJob body id res)).flatMap
      (fun j => (watchAndCleanUpJob j readings del).1)

/-! ## Concrete inputs and trace predicates -/

/-- A job handle used in the concrete scenarios. -/
def sampleJob : Job :=
  { emptyJob with ObjectMeta := { Name := "etl-batch-7f", Namespace := "default", Labels := [] } }

/-- The fetch result with the given counters and error flag; every other
field of the returned job is the zero value. -/
def fetched (active succeeded failed : Int) (err : Bool) : GetResult :=
  { j := { emptyJob with Status := { Active := active, Succeeded := succeeded, Failed := failed } },
    err := err }

/-- The trace holds exactly one delete call.  It ends with the line "cleaning
up", the delete call for the handle's (namespace, name), and the line that
reports the outcome of that call: "error when trying to remove" when the call
returned an error, "removed" otherwise.  Nothing follows, so no status fetch
and no second delete comes after the delete call. -/
def DeletesOnceAfterLastFetch (job : Job) (delErr : Bool) (trace : List Event) : Prop :=
  trace.countP Event.isDelete = 1 ∧
  ∃ before,
    trace = before ++
      [Event.log job.ObjectMeta.Name "cleaning up",
       Event.delete job.ObjectMeta.Namespace job.ObjectMeta.Name,
       Event.log job.ObjectMeta.Name
         (if delErr then "error when trying to remove" else "removed")] ∧
    before.countP Event.isDelete = 0

/-- The run broke out of the loop on its `k`-th status fetch: the trace holds
`k` fetches and one delete call, and it ends with that fetch, the line `line`
of the branch taken, and the cleanup of `deleteJob` with a usable client. -/
def EndsAtTick (job : Job) (run : List Event × LoopExit) (k : Nat) (line : String)
    (delErr : Bool) : Prop :=
  run.2 = .broke ∧
  run.1.countP Event.isGet = k ∧
  run.1.countP Event.isDelete = 1 ∧
  ∃ ticks,
    run.1 = ticks ++
      [Event.get job.ObjectMeta.Namespace job.ObjectMeta.Name,
       Event.log job.ObjectMeta.Name line,
       Event.log job.ObjectMeta.Name "cleaning up",
       Event.delete job.ObjectMeta.Namespace job.ObjectMeta.Name,
       Event.log job.ObjectMeta.Name
         (if delErr then "error when trying to remove" else "removed")]

/-- A decoded request body with base name "etl-batch". -/
def draftJob : Job :=
  { ObjectMeta := { Name := "etl-batch", Namespace := "batch", Labels := [("team", "etl")] },
    Spec := { Template := { ObjectMeta := { Name := "worker", Namespace := "", Labels := [] },
                            Spec := "image: etl:1" },
              Settings := "backoffLimit: 0" },
    Status := { Active := 0, Succeeded := 0, Failed := 0 } }

/-! ## Facts about the loop shared by the results below -/

lemma loopBody_isGet (job : Job) (r : GetResult) :
    (loopBody job r).1.countP Event.isGet = 0 := by
  unfold loopBody
  cases r.err <;> cases h : (classify r.j.Status).breaks <;> simp [jobLog, Event.isGet, h]

lemma loopBody_isDelete (job : Job) (r : GetResult) :
    (loopBody job r).1.countP Event.isDelete = 0 := by
  unfold loopBody
  cases r.err <;> cases h : (classify r.j.Status).breaks <;> simp [jobLog, Event.isDelete, h]

lemma loopBody_breaks (job : Job) (r : GetResult) :
    (loopBody job r).2 = (classify r.j.Status).breaks := by
  unfold loopBody
  cases h : (classify r.j.Status).breaks <;> simp [h]

lemma pollLoop_isDelete (job : Job) (readings : List TickReading) :
    (pollLoop job readings).1.countP Event.isDelete = 0 := by
  induction readings with
  | nil => simp [pollLoop]
  | cons t rest ih =>
    cases t with
    | noClient => simp [pollLoop]
    | returned r =>
      unfold pollLoop
      split
      · simp [List.countP_cons, loopBody_isDelete, Event.isDelete]
      · simp [List.countP_cons, List.countP_append, loopBody_isDelete, ih, Event.isDelete]

lemma deleteJob_returned (job : Job) (err : Bool) :
    deleteJob job (.returned err) =
      [Event.log job.ObjectMeta.Name "cleaning up",
       Event.delete job.ObjectMeta.Namespace job.ObjectMeta.Name,
       Event.log job.ObjectMeta.Name
         (if err then "error when trying to remove" else "removed")] := by
  cases err <;> simp [deleteJob, jobLog]

lemma deleteJob_isDelete (job : Job) (err : Bool) :
    (deleteJob job (.returned err)).countP Event.isDelete = 1 := by
  rw [deleteJob_returned]
  simp [Event.isDelete, List.countP_cons]

lemma deleteJob_isGet (job : Job) (err : Bool) :
    (deleteJob job (.returned err)).countP Event.isGet = 0 := by
  rw [deleteJob_returned]
  simp [Event.isGet, List.countP_cons]

/-- A run that has left the loop is the loop's events followed by `deleteJob`. -/
lemma watch_exited (job : Job) (readings : List TickReading) (del : DeleteReading)
    (h : (pollLoop job readings).2 ≠ .running) :
    watchAndCleanUpJob job readings del =
      ((pollLoop job readings).1 ++ deleteJob job del, (pollLoop job readings).2) := by
  unfold watchAndCleanUpJob
  split
  · next hrun => exact absurd hrun h
  · rfl

lemma watch_exit_eq (job : Job) (readings : List TickReading) (del : DeleteReading) :
    (watchAndCleanUpJob job readings del).2 = (pollLoop job readings).2 := by
  unfold watchAndCleanUpJob
  split
  · next hrun => simp [hrun]
  · rfl

/-! ## Cleanup -/

/-- C1, as stated, fails: when `getKubeClientset` hands back a nil client the
first iteration panics, an abnormal exit of the loop, and the deferred
`deleteJob` logs "cleaning up" and panics in turn at its own client call, so
the run has left the loop and not one delete call was sent. -/
theorem watch_without_client_sends_no_delete :
    (watchAndCleanUpJob sampleJob [.noClient] .noClient).2 ≠ .running ∧
    watchAndCleanUpJob sampleJob [.noClient] .noClient =
      ([Event.log "etl-batch-7f" "cleaning up"], .panicked) ∧
    (watchAndCleanUpJob sampleJob [.noClient] .noClient).1.countP Event.isDelete = 0 := by
  decide

/-- C1, amended: whenever the readings make `watchAndCleanUpJob` leave its
loop (by a break on a Succeeded or Failed branch, or by a panic) and the
client can be built when the deferred `deleteJob` runs, the trace holds
exactly one delete call, for the handle's (namespace, name), placed after
every status fetch; this holds whether or not the delete call returns an
error, and a failed delete is followed only by the line "error when trying to
remove". -/
theorem watch_deletes_once_with_client (job : Job) (readings : List TickReading)
    (delErr : Bool)
    (hexit : (watchAndCleanUpJob job readings (.returned delErr)).2 ≠ .running) :
    DeletesOnceAfterLastFetch job delErr
      (watchAndCleanUpJob job readings (.returned delErr)).1 := by
  rw [watch_exit_eq] at hexit
  rw [watch_exited job readings (.returned delErr) hexit]
  refine ⟨?_, (pollLoop job readings).1, ?_, pollLoop_isDelete job readings⟩
  · simp only [List.countP_append, pollLoop_isDelete, deleteJob_isDelete]
  · simp only [deleteJob_returned]

/-- Witness for the amended C1: a loop left by a panic, followed by a delete
call that fails, and a loop left on a Succeeded reading, followed by a delete
call that succeeds. -/
theorem watch_deletes_once_with_client_witness :
    ((watchAndCleanUpJob sampleJob [.noClient] (.returned true)).2 ≠ .running ∧
      DeletesOnceAfterLastFetch sampleJob true
        (watchAndCleanUpJob sampleJob [.noClient] (.returned true)).1) ∧
    ((watchAndCleanUpJob sampleJob
        [.returned (fetched 1 0 0 false), .returned (fetched 0 1 0 false)]
        (.returned false)).2 ≠ .running ∧
      DeletesOnceAfterLastFetch sampleJob false (watchAndCleanUpJob sampleJob
        [.returned (fetched 1 0 0 false), .returned (fetched 0 1 0 false)]
        (.returned false)).1) :=
  ⟨⟨by decide, watch_deletes_once_with_client sampleJob [.noClient] true (by decide)⟩,
   ⟨by decide, watch_deletes_once_with_client sampleJob
      [.returned (fetched 1 0 0 false), .returned (fetched 0 1 0 false)] false (by decide)⟩⟩

/-! ## Classification of one tick -/

/-- C2, as stated, fails: a successful fetch with counters (active 2,
succeeded 1, failed 0) has active count at least 1, yet the tick takes the
Succeeded branch, logs "finished" and leaves the loop. -/
theorem active_two_takes_succeeded_branch :
    (fetched 2 1 0 false).err = false ∧
    1 ≤ (fetched 2 1 0 false).j.Status.Active ∧
    classify (fetched 2 1 0 false).j.Status = .Succeeded ∧
    loopBody sampleJob (fetched 2 1 0 false) = ([jobLog sampleJob "finished"], true) ∧
    (pollLoop sampleJob [.returned (fetched 2 1 0 false), .returned (fetched 1 0 0 false)]).2
      = .broke := by
  decide

/-- C2, amended: a successful fetch whose active count is exactly 1, with any
succeeded and failed counts, takes the Active branch: the tick logs "active",
sleeps, and the loop goes on to the next reading. -/
theorem active_one_continues (job : Job) (r : GetResult) (rest : List TickReading)
    (herr : r.err = false) (hactive : r.j.Status.Active = 1) :
    classify r.j.Status = .Active ∧
    loopBody job r = ([jobLog job "active", .sleep], false) ∧
    pollLoop job (.returned r :: rest) =
      (.get job.ObjectMeta.Namespace job.ObjectMeta.Name ::
         jobLog job "active" :: .sleep :: (pollLoop job rest).1,
       (pollLoop job rest).2) := by
  have hc : classify r.j.Status = .Active := by simp [classify, hactive]
  have hb : loopBody job r = ([jobLog job "active", .sleep], false) := by
    simp [loopBody, hc, herr, Classification.breaks, Classification.message]
  refine ⟨hc, hb, ?_⟩
  simp [pollLoop, hb]

/-- Witness for the amended C2 at counters (active 1, succeeded 5, failed 7). -/
theorem active_one_continues_witness :
    (fetched 1 5 7 false).err = false ∧ (fetched 1 5 7 false).j.Status.Active = 1 ∧
    (classify (fetched 1 5 7 false).j.Status = .Active ∧
      loopBody sampleJob (fetched 1 5 7 false) = ([jobLog sampleJob "active", .sleep], false) ∧
      pollLoop sampleJob (.returned (fetched 1 5 7 false) :: [.noClient]) =
        (.get sampleJob.ObjectMeta.Namespace sampleJob.ObjectMeta.Name ::
           jobLog sampleJob "active" :: .sleep :: (pollLoop sampleJob [.noClient]).1,
         (pollLoop sampleJob [.noClient]).2)) :=
  ⟨by decide, by decide,
    active_one_continues sampleJob (fetched 1 5 7 false) [.noClient] (by decide) (by decide)⟩

/-- C3, as stated, fails: a successful fetch with counters (active 0,
succeeded 2, failed 0) has succeeded count at least 1, yet the tick takes the
catch-all branch, does not log "finished" and does not leave the loop. -/
theorem succeeded_two_takes_catch_all_branch :
    (fetched 0 2 0 false).err = false ∧
    (fetched 0 2 0 false).j.Status.Active = 0 ∧
    1 ≤ (fetched 0 2 0 false).j.Status.Succeeded ∧
    classify (fetched 0 2 0 false).j.Status = .Unknown ∧
    loopBody sampleJob (fetched 0 2 0 false) =
      ([jobLog sampleJob "I have no idea what the fuck is happening", .sleep], false) ∧
    (pollLoop sampleJob [.returned (fetched 0 2 0 false)]).2 = .running := by
  decide

/-- C3, amended: a successful fetch whose active count is 0 and whose
succeeded count is exactly 1, with any failed count, takes the Succeeded
branch: the tick logs "finished" and the loop ends on that tick, whatever
readings would follow. -/
theorem succeeded_one_terminates (job : Job) (r : GetResult) (rest : List TickReading)
    (herr : r.err = false) (hactive : r.j.Status.Active = 0)
    (hsucceeded : r.j.Status.Succeeded = 1) :
    classify r.j.Status = .Succeeded ∧
    loopBody job r = ([jobLog job "finished"], true) ∧
    pollLoop job (.returned r :: rest) =
      ([.get job.ObjectMeta.Namespace job.ObjectMeta.Name, jobLog job "finished"], .broke) := by
  have hc : classify r.j.Status = .Succeeded := by simp [classify, hactive, hsucceeded]
  have hb : loopBody job r = ([jobLog job "finished"], true) := by
    simp [loopBody, hc, herr, Classification.breaks, Classification.message]
  refine ⟨hc, hb, ?_⟩
  simp [pollLoop, hb]

/-- Witness for the amended C3 at counters (active 0, succeeded 1, failed 4). -/
theorem succeeded_one_terminates_witness :
    (fetched 0 1 4 false).err = false ∧ (fetched 0 1 4 false).j.Status.Active = 0 ∧
    (fetched 0 1 4 false).j.Status.Succeeded = 1 ∧
    (classify (fetched 0 1 4 false).j.Status = .Succeeded ∧
      loopBody sampleJob (fetched 0 1 4 false) = ([jobLog sampleJob "finished"], true) ∧
      pollLoop sampleJob (.returned (fetched 0 1 4 false) :: [.returned (fetched 1 0 0 false)]) =
        ([.get sampleJob.ObjectMeta.Namespace sampleJob.ObjectMeta.Name,
          jobLog sampleJob "finished"], .broke)) :=
  ⟨by decide, by decide, by decide,
    succeeded_one_terminates sampleJob (fetched 0 1 4 false) [.returned (fetched 1 0 0 false)]
      (by decide) (by decide) (by decide)⟩

/-- C4, at the failing input: when the fetch returns an error together
with a job value whose counters are (active 0, succeeded 1, failed 0), the
tick logs the error line, then takes the Succeeded branch, logs "finished"
and leaves the loop after that single fetch; the Active reading that would
follow is never fetched. -/
theorem fetch_error_with_succeeded_counter_ends_loop :
    (fetched 0 1 0 true).err = true ∧
    loopBody sampleJob (fetched 0 1 0 true) =
      ([jobLog sampleJob "something went terribly wrong, can't retrieve job status",
        jobLog sampleJob "finished"], true) ∧
    (pollLoop sampleJob [.returned (fetched 0 1 0 true), .returned (fetched 1 0 0 false)]).2
      = .broke ∧
    (pollLoop sampleJob
      [.returned (fetched 0 1 0 true), .returned (fetched 1 0 0 false)]).1.countP Event.isGet
      = 1 := by
  decide

/-- C8: counters (active 1, succeeded 1, failed 0) take the Active branch and
do not leave the loop; counters (active 0, succeeded 1, failed 1) take the
Succeeded branch and leave the loop.  In general the active test comes first
(active count 1 gives Active whatever the other counters), the succeeded test
second (succeeded count 1 gives Succeeded unless the active test held) and
the failed test third. -/
theorem classification_precedence (a s f : Int) :
    (classify ⟨1, 1, 0⟩ = .Active ∧
      loopBody sampleJob (fetched 1 1 0 false) = ([jobLog sampleJob "active", .sleep], false)) ∧
    (classify ⟨0, 1, 1⟩ = .Succeeded ∧
      loopBody sampleJob (fetched 0 1 1 false) = ([jobLog sampleJob "finished"], true)) ∧
    classify ⟨1, s, f⟩ = .Active ∧
    classify ⟨a, 1, f⟩ = (if a = 1 then .Active else .Succeeded) ∧
    classify ⟨a, s, 1⟩ = (if a = 1 then .Active else if s = 1 then .Succeeded else .Failed) := by
  refine ⟨by decide, by decide, ?_, ?_, ?_⟩
  · simp [classify]
  · simp [classify]
  · simp [classify]

/-! ## Running to the first terminal reading -/

lemma pollLoop_continuing (job : Job) (pre : List GetResult) (rest : List TickReading)
    (h : ∀ x ∈ pre, (classify x.j.Status).breaks = false) :
    pollLoop job (pre.map .returned ++ rest) =
      ((pollLoop job (pre.map .returned)).1 ++ (pollLoop job rest).1, (pollLoop job rest).2) ∧
    (pollLoop job (pre.map .returned)).2 = .running ∧
    (pollLoop job (pre.map .returned)).1.countP Event.isGet = pre.length := by
  induction pre with
  | nil => simp [pollLoop]
  | cons x xs ih =>
    have hx : (loopBody job x).2 = false := by
      rw [loopBody_breaks]; exact h x (List.mem_cons_self _ _)
    obtain ⟨h1, h2, h3⟩ := ih (fun y hy => h y (List.mem_cons_of_mem _ hy))
    refine ⟨?_, ?_, ?_⟩
    · simp only [List.map_cons, List.cons_append, pollLoop, hx, List.append_eq]
      rw [h1]
      simp
    · simp only [List.map_cons, pollLoop, hx]
      simpa using h2
    · simp only [List.map_cons, pollLoop, hx]
      simp [List.countP_cons, List.countP_append, loopBody_isGet, h3, Event.isGet]

lemma pollLoop_breaking (job : Job) (r : GetResult) (rest : List TickReading)
    (h : (classify r.j.Status).breaks = true) :
    pollLoop job (.returned r :: rest) =
      (.get job.ObjectMeta.Namespace job.ObjectMeta.Name :: (loopBody job r).1, .broke) := by
  have hx : (loopBody job r).2 = true := by rw [loopBody_breaks]; exact h
  simp [pollLoop, hx]

lemma loopBody_breaking_line (job : Job) (r : GetResult) (herr : r.err = false)
    (h : classify r.j.Status = .Succeeded ∨ classify r.j.Status = .Failed) :
    (loopBody job r).1 =
      [Event.log job.ObjectMeta.Name
        (if classify r.j.Status = .Succeeded then "finished" else "failed")] := by
  unfold loopBody
  rcases h with h | h <;>
    simp [h, herr, Classification.breaks, Classification.message, jobLog]

/-- C7, as stated, fails at two inputs.  First, a fetch error whose returned
value carries counters (active 0, succeeded 1, failed 0), followed by an
Active and a Failed reading: the first reading that is a Succeeded or Failed
status is the third, yet the run fetches once, logs the error line and
"finished", and cleans up.  Second, the sequence [Active, Failed] when
`getKubeClientset` hands back a nil client during cleanup: the run fetches
twice and logs "failed", and then sends no delete call. -/
theorem first_terminal_reading_counterexample :
    watchAndCleanUpJob sampleJob
        [.returned (fetched 0 1 0 true), .returned (fetched 1 0 0 false),
         .returned (fetched 0 0 1 false)] (.returned false) =
      ([Event.get "default" "etl-batch-7f",
        Event.log "etl-batch-7f" "something went terribly wrong, can't retrieve job status",
        Event.log "etl-batch-7f" "finished",
        Event.log "etl-batch-7f" "cleaning up",
        Event.delete "default" "etl-batch-7f",
        Event.log "etl-batch-7f" "removed"], .broke) ∧
    watchAndCleanUpJob sampleJob
        [.returned (fetched 1 0 0 false), .returned (fetched 0 0 1 false)] .noClient =
      ([Event.get "default" "etl-batch-7f",
        Event.log "etl-batch-7f" "active",
        Event.sleep,
        Event.get "default" "etl-batch-7f",
        Event.log "etl-batch-7f" "failed",
        Event.log "etl-batch-7f" "cleaning up"], .broke) := by
  decide

/-- C7, amended: take a finite sequence of fetch results in which the first
k-1 take the Active or the catch-all branch (fetch errors with such counters
among them) and the k-th is a successful fetch taking the Succeeded or the
Failed branch, and let the client be usable during cleanup.  Then the watcher
performs exactly k status fetches, breaks on tick k after logging "finished"
for Succeeded and "failed" for Failed, and then runs cleanup with exactly one
delete call; whatever readings would follow are never fetched, and over the
first k-1 readings alone the loop is still running. -/
theorem first_terminal_reading_ends_watch (job : Job) (earlier : List GetResult)
    (r : GetResult) (later : List TickReading) (delErr : Bool)
    (hearlier : ∀ x ∈ earlier,
      classify x.j.Status = .Active ∨ classify x.j.Status = .Unknown)
    (herr : r.err = false)
    (hr : classify r.j.Status = .Succeeded ∨ classify r.j.Status = .Failed) :
    EndsAtTick job
      (watchAndCleanUpJob job
        (earlier.map TickReading.returned ++ TickReading.returned r :: later)
        (.returned delErr))
      (earlier.length + 1)
      (if classify r.j.Status = .Succeeded then "finished" else "failed")
      delErr ∧
    (watchAndCleanUpJob job (earlier.map TickReading.returned) (.returned delErr)).2
      = .running := by
  have hpre : ∀ x ∈ earlier, (classify x.j.Status).breaks = false := by
    intro x hx
    rcases hearlier x hx with h | h <;> simp [h, Classification.breaks]
  have hbrk : (classify r.j.Status).breaks = true := by
    rcases hr with h | h <;> simp [h, Classification.breaks]
  obtain ⟨h1, h2, h3⟩ :=
    pollLoop_continuing job earlier (TickReading.returned r :: later) hpre
  rw [pollLoop_breaking job r later hbrk, loopBody_breaking_line job r herr hr] at h1
  have hexit : (pollLoop job
      (earlier.map TickReading.returned ++ TickReading.returned r :: later)).2
        ≠ .running := by
    rw [h1]; simp
  have hrun := watch_exited job
    (earlier.map TickReading.returned ++ TickReading.returned r :: later)
    (.returned delErr) hexit
  rw [h1, deleteJob_returned] at hrun
  have hd := pollLoop_isDelete job (earlier.map TickReading.returned)
  refine ⟨⟨?_, ?_, ?_, ?_⟩, ?_⟩
  · rw [hrun]
  · rw [hrun]
    simp only [List.countP_append, List.countP_cons, h3, Event.isGet]
    simp
  · rw [hrun]
    simp only [List.countP_append, List.countP_cons, hd, Event.isDelete]
    simp
  · refine ⟨(pollLoop job (earlier.map TickReading.returned)).1, ?_⟩
    rw [hrun]
    simp
  · rw [watch_exit_eq]
    exact h2

/-- Witness for the amended C7: the sequence [Unknown (a fetch error with
zero counters), Active, Active, Succeeded] gives 4 fetches, ends on "finished"
and deletes once; the sequence [Active, Failed] gives 2 fetches, ends on
"failed" and deletes once, here with a delete call that returns an error. -/
theorem first_terminal_reading_ends_watch_witness :
    (EndsAtTick sampleJob
        (watchAndCleanUpJob sampleJob
          [.returned (fetched 0 0 0 true), .returned (fetched 1 0 0 false),
           .returned (fetched 1 0 0 false), .returned (fetched 0 1 0 false)]
          (.returned false))
        4 "finished" false ∧
      (watchAndCleanUpJob sampleJob
          [.returned (fetched 0 0 0 true), .returned (fetched 1 0 0 false),
           .returned (fetched 1 0 0 false)] (.returned false)).2 = .running) ∧
    (EndsAtTick sampleJob
        (watchAndCleanUpJob sampleJob
          [.returned (fetched 1 0 0 false), .returned (fetched 0 0 1 false)]
          (.returned true))
        2 "failed" true ∧
      (watchAndCleanUpJob sampleJob [.returned (fetched 1 0 0 false)]
          (.returned true)).2 = .running) :=
  ⟨first_terminal_reading_ends_watch sampleJob
      [fetched 0 0 0 true, fetched 1 0 0 false, fetched 1 0 0 false] (fetched 0 1 0 false)
      [] false (by decide) (by decide) (by decide),
   first_terminal_reading_ends_watch sampleJob [fetched 1 0 0 false] (fetched 0 0 1 false)
      [] true (by decide) (by decide) (by decide)⟩

/-! ## Submission -/

/-- C5, at the failing input: for the body named "etl-batch" in namespace
"batch" and the identifier "id1", the attempted name is "etl-batch-id1"; when
the create call fails and hands back the zero job value, the rejection line is
logged under that value's name, the empty string, and no line is logged under
the attempted name.  For every body, identifier and returned value `j`, the
line of a failed create carries the name of `j`. -/
theorem failed_create_logged_under_returned_name (job : Job) (id : String) (j : Job) :
    (assignIdentity draftJob "id1").ObjectMeta.Name = "etl-batch-id1" ∧
    handleCreateJob (some draftJob) "id1" { j := emptyJob, err := true } =
      [.create "batch" (assignIdentity draftJob "id1"), .log "" "failed to create"] ∧
    Event.log "etl-batch-id1" "failed to create" ∉
      handleCreateJob (some draftJob) "id1" { j := emptyJob, err := true } ∧
    handleCreateJob (some job) id { j := j, err := true } =
      [.create job.ObjectMeta.Namespace (assignIdentity job id),
       .log j.ObjectMeta.Name "failed to create"] := by
  refine ⟨by decide, by decide, by decide, ?_⟩
  simp [handleCreateJob, jobLog, assignIdentity]

/-- C6: when the create call returns an error the handler starts no watcher,
and the whole request (handler plus the watchers it started, over any
readings and any cleanup outcome) issues no delete call and is just the handler's two events; when the
create call succeeds the handler starts exactly one watcher, on the returned
handle. -/
theorem create_error_starts_no_watcher (job : Job) (id : String) (j : Job)
    (readings : List TickReading) (del : DeleteReading) :
    spawned (handleCreateJob (some job) id { j := j, err := true }) = [] ∧
    (handleCreateJob (some job) id { j := j, err := true }).countP Event.isSpawn = 0 ∧
    (serveRequest (some job) id { j := j, err := true } readings del).countP Event.isDelete
      = 0 ∧
    serveRequest (some job) id { j := j, err := true } readings del =
      handleCreateJob (some job) id { j := j, err := true } ∧
    spawned (handleCreateJob (some job) id { j := j, err := false }) = [j] ∧
    (handleCreateJob (some job) id { j := j, err := false }).countP Event.isSpawn = 1 ∧
    serveRequest (some job) id { j := j, err := false } readings del =
      handleCreateJob (some job) id { j := j, err := false } ++
        (watchAndCleanUpJob j readings del).1 := by
  refine ⟨?_, ?_, ?_, ?_, ?_, ?_, ?_⟩ <;>
    simp [serveRequest, handleCreateJob, spawned, jobLog, Event.isSpawn, Event.isDelete]

/-! ## Unique names -/

lemma uniqueName_injective (base a b : String) (h : uniqueName base a = uniqueName base b) :
    a = b := by
  have hd := congrArg String.data h
  simp only [uniqueName, String.data_append] at hd
  exact String.ext (List.append_cancel_left hd)

/-- C9: with the generated identifier as an input of the name rewrite, the
names given to one body under pairwise distinct identifiers are pairwise
distinct, and each of them is the base name, then "-", then the identifier,
so it starts with the base name followed by "-". -/
theorem unique_names_pairwise_distinct (job : Job) (ids : List String)
    (hids : ids.Pairwise (fun a b => a ≠ b)) :
    (ids.map (fun id => (assignIdentity job id).ObjectMeta.Name)).Pairwise (fun a b => a ≠ b) ∧
    ∀ id ∈ ids,
      (assignIdentity job id).ObjectMeta.Name = job.ObjectMeta.Name ++ "-" ++ id ∧
      (job.ObjectMeta.Name ++ "-").data <+: (assignIdentity job id).ObjectMeta.Name.data := by
  refine ⟨?_, ?_⟩
  · rw [List.pairwise_map]
    refine hids.imp ?_
    intro a b hab hname
    exact hab (uniqueName_injective job.ObjectMeta.Name a b hname)
  · intro id _
    refine ⟨rfl, ?_⟩
    show (job.ObjectMeta.Name ++ "-").data <+: (job.ObjectMeta.Name ++ "-" ++ id).data
    rw [String.data_append (job.ObjectMeta.Name ++ "-") id]
    exact List.prefix_append _ _

/-- Witness for C9: base name "etl-batch" with the identifiers "id1" and "id2". -/
theorem unique_names_pairwise_distinct_witness :
    ["id1", "id2"].Pairwise (fun a b => a ≠ b) ∧
    ((["id1", "id2"].map (fun id => (assignIdentity draftJob id).ObjectMeta.Name)).Pairwise
        (fun a b => a ≠ b) ∧
      ∀ id ∈ ["id1", "id2"],
        (assignIdentity draftJob id).ObjectMeta.Name = draftJob.ObjectMeta.Name ++ "-" ++ id ∧
        (draftJob.ObjectMeta.Name ++ "-").data <+:
          (assignIdentity draftJob id).ObjectMeta.Name.data) :=
  ⟨by decide, unique_names_pairwise_distinct draftJob ["id1", "id2"] (by decide)⟩

/-- C10: after the name rewrite the top-level name and the template name are
equal, both being the unique name built from the old top-level name and the
identifier, and every other field (the namespace, the labels, the template's
namespace, labels and pod spec, the job settings and the status) is as it was. -/
theorem assignIdentity_names_consistent (job : Job) (id : String) :
    (assignIdentity job id).ObjectMeta.Name = (assignIdentity job id).Spec.Template.ObjectMeta.Name ∧
    (assignIdentity job id).ObjectMeta.Name = uniqueName job.ObjectMeta.Name id ∧
    (assignIdentity job id).Spec.Template.ObjectMeta.Name = uniqueName job.ObjectMeta.Name id ∧
    (assignIdentity job id).ObjectMeta.Namespace = job.ObjectMeta.Namespace ∧
    (assignIdentity job id).ObjectMeta.Labels = job.ObjectMeta.Labels ∧
    (assignIdentity job id).Spec.Template.ObjectMeta.Namespace =
      job.Spec.Template.ObjectMeta.Namespace ∧
    (assignIdentity job id).Spec.Template.ObjectMeta.Labels =
      job.Spec.Template.ObjectMeta.Labels ∧
    (assignIdentity job id).Spec.Template.Spec = job.Spec.Template.Spec ∧
    (assignIdentity job id).Spec.Settings = job.Spec.Settings ∧
    (assignIdentity job id).Status = job.Status :=
  ⟨rfl, rfl, rfl, rfl, rfl, rfl, rfl, rfl, rfl, rfl⟩

end Gorunit
